import Mathlib

/-!
Verification of the lead-generation pipeline core: the lead status state
machine, the outreach dispatcher (retry logic, dry-run mode, rate limiting),
and the pipeline run state.

The definitions below are a shallow embedding of the Python sources:
  backend/database.py   (LeadStatus, update_lead_status, get_leads_by_status)
  backend/outreach.py   (OutreachService: _apply_rate_limit, send_email,
                         send_linkedin_dm, send_outreach)
  backend/enrichment.py (LeadEnricher: _offline_enrichment, _ai_enrichment,
                         enrich_lead)
  backend/api.py        (pipeline_state, run_pipeline, stop_pipeline,
                         execute_pipeline)
  mcp_server/server.py  (call_tool: enrich_leads, generate_messages,
                         send_outreach tools)

Modelling conventions:
* Wall-clock time (`time.time()`, `time.sleep`) is modelled with exact
  rationals; Python floats are idealised as exact arithmetic.
* Nondeterministic effects are oracles passed as explicit arguments:
  an SMTP attempt is `smtp : Nat -> Option String` (`none` = delivered,
  `some err` = `smtplib` raised with message `err`, indexed by the
  `retry_count` of the attempt); the LinkedIn simulation draw
  `random.random() < 0.95` on an attempt is `draw : Nat -> Bool`; the body
  of `_ai_enrichment`'s try-block (LLM call plus JSON parse) is an
  `Except String Enrichment` value per lead.
* Send functions additionally return a natural number counting the live
  SMTP sessions they open (`smtplib.SMTP(...)` blocks executed); the
  rate-limiter state mutated by `_apply_rate_limit` influences timing only,
  never result values, and is modelled separately by `apply_rate_limit`.
* The `timestamp` field of result dictionaries (wall-clock `datetime.now()`)
  is omitted from `SendResult`; it is timing data with no control-flow role.
-/

namespace LeadGen

/-- `LeadStatus` from backend/database.py. -/
inductive LeadStatus where
  | NEW
  | ENRICHED
  | MESSAGED
  | SENT
  | FAILED
  deriving DecidableEq, Repr

/-- The forward edges of the documented stage state machine
`NEW -> ENRICHED -> MESSAGED -> (SENT | FAILED)`. -/
inductive StatusEdge : LeadStatus → LeadStatus → Prop where
  | enrich : StatusEdge .NEW .ENRICHED
  | message : StatusEdge .ENRICHED .MESSAGED
  | sent : StatusEdge .MESSAGED .SENT
  | failed : StatusEdge .MESSAGED .FAILED

/-- Per-channel result dictionary of `OutreachService.send_email` /
`send_linkedin_dm` (backend/outreach.py): keys `status`, `message`,
`channel`. The wall-clock `timestamp` key is omitted (see header). -/
structure SendResult where
  status : String
  message : String
  channel : String
  deriving DecidableEq, Repr

/-- Live (non-dry-run) part of `OutreachService.send_email`: try the SMTP
send, on exception retry while `retry_count < max_retries`, else return the
`failed` dictionary carrying the last error. `remaining` is
`max_retries - retry_count`, making the recursion structural; the second
component counts live SMTP sessions opened. -/
def sendEmailAux (smtp : ℕ → Option String) : ℕ → ℕ → SendResult × ℕ
  | retryCount, remaining =>
    match smtp retryCount with
    | none =>
        ({ status := "success", message := "Email sent successfully", channel := "email" }, 1)
    | some err =>
        match remaining with
        | r + 1 =>
            let res := sendEmailAux smtp (retryCount + 1) r
            (res.1, res.2 + 1)
        | 0 =>
            ({ status := "failed",
               message := "Email failed after " ++ toString (retryCount + 1) ++
                 " attempts: " ++ err,
               channel := "email" }, 1)

/-- `OutreachService.send_email` (backend/outreach.py). In dry-run mode the
method returns the logged dictionary before any SMTP code runs (0 live
sessions). -/
def send_email (dry_run : Bool) (max_retries : ℕ) (smtp : ℕ → Option String)
    (retry_count : ℕ) : SendResult × ℕ :=
  if dry_run then
    ({ status := "success", message := "Dry run - email logged", channel := "email" }, 0)
  else sendEmailAux smtp retry_count (max_retries - retry_count)

/-- Recursive body of `OutreachService.send_linkedin_dm`: the send is always
simulated (no network code exists on this path); `draw retryCount` is the
outcome of `random.random() < 0.95` on that attempt. `remaining` is
`max_retries - retry_count`. -/
def sendLinkedinAux (draw : ℕ → Bool) : ℕ → ℕ → SendResult
  | retryCount, remaining =>
    if draw retryCount then
      { status := "success", message := "LinkedIn DM simulated successfully",
        channel := "linkedin" }
    else
      match remaining with
      | r + 1 => sendLinkedinAux draw (retryCount + 1) r
      | 0 =>
          { status := "failed", message := "LinkedIn DM simulation failed",
            channel := "linkedin" }

/-- `OutreachService.send_linkedin_dm` (backend/outreach.py). Note that the
method does not read `self.dry_run` and performs no I/O. -/
def send_linkedin_dm (max_retries : ℕ) (draw : ℕ → Bool) (retry_count : ℕ) : SendResult :=
  sendLinkedinAux draw retry_count (max_retries - retry_count)

/-- `OutreachService.send_outreach` (backend/outreach.py): builds the
per-channel results dictionary (as an association list in insertion order).
The second component counts live SMTP sessions opened (only the email
channel can open any). -/
def send_outreach (dry_run : Bool) (max_retries : ℕ) (smtp : ℕ → Option String)
    (draw : ℕ → Bool) (channel : String) : List (String × SendResult) × ℕ :=
  let emailPart : List (String × SendResult) × ℕ :=
    if channel == "email" || channel == "both" then
      let r := send_email dry_run max_retries smtp 0
      ([("email", r.1)], r.2)
    else ([], 0)
  let linkedinPart : List (String × SendResult) :=
    if channel == "linkedin" || channel == "both" then
      [("linkedin", send_linkedin_dm max_retries draw 0)]
    else []
  (emailPart.1 ++ linkedinPart, emailPart.2)

/-- `all(r['status'] == 'success' for r in results.values())`, the aggregate
computed identically in backend/api.py (execute_pipeline, stage 4) and
mcp_server/server.py (send_outreach tool). -/
def allSuccess (results : List (String × SendResult)) : Bool :=
  results.all (fun r => r.2.status == "success")

/-- The lead status written from a dispatch outcome: `SENT` when every
channel result is success, else `FAILED` (backend/api.py lines 308-314,
mcp_server/server.py lines 282-289). -/
def dispatchStatus (results : List (String × SendResult)) : LeadStatus :=
  if allSuccess results then .SENT else .FAILED

/-- Mutable rate-limiter attributes of `OutreachService` (backend/outreach.py):
`last_send_time`, `send_count`, `send_window_start`. At construction
`last_send_time = 0`, `send_count = 0`, `send_window_start = time.time()`. -/
structure RLState where
  last_send_time : ℚ
  send_count : ℕ
  send_window_start : ℚ
  deriving DecidableEq, Repr

/-- `OutreachService._apply_rate_limit` (backend/outreach.py lines 42-66),
as a step on the limiter state. `t` is `current_time = time.time()` captured
at entry; sleeps advance the clock. Returns the new state and the time at
which the function returns (the moment the caller performs its send, also
written to `last_send_time`). -/
def apply_rate_limit (rate_limit : ℕ) (s : RLState) (t : ℚ) : RLState × ℚ :=
  -- Reset counter if minute has passed
  let c₁ : ℕ := if t - s.send_window_start ≥ 60 then 0 else s.send_count
  let w₁ : ℚ := if t - s.send_window_start ≥ 60 then t else s.send_window_start
  -- Check if we have hit the limit: sleep to the end of the window
  let blocked : RLState × ℚ :=
    if c₁ ≥ rate_limit then
      let sleepTime := 60 - (t - w₁)
      if sleepTime > 0 then (⟨s.last_send_time, 0, t + sleepTime⟩, t + sleepTime)
      else (⟨s.last_send_time, c₁, w₁⟩, t)
    else (⟨s.last_send_time, c₁, w₁⟩, t)
  -- Small delay between sends (computed from the stale entry time `t`)
  let now : ℚ :=
    if t - s.last_send_time < 1 then blocked.2 + (1 - (t - s.last_send_time))
    else blocked.2
  (⟨now, blocked.1.send_count + 1, blocked.1.send_window_start⟩, now)

/-- Run a sequence of sends through one `OutreachService` instance:
`ts` are the entry times of the successive `_apply_rate_limit` calls
(single worker: each entry time is at or after the previous return).
Returns the send timestamps. -/
def rlSimulate (rate_limit : ℕ) (s : RLState) : List ℚ → List ℚ
  | [] => []
  | t :: ts =>
    let p := apply_rate_limit rate_limit s t
    p.2 :: rlSimulate rate_limit p.1 ts

/-- A row of the `leads` table (backend/database.py), restricted to the
fields the pipeline logic reads: the primary key `id`, the intake fields
`role_title` and `industry` consumed by enrichment, and the mutable
`status`. `id` is an AUTOINCREMENT primary key, hence unique across rows. -/
structure DbLead where
  id : ℕ
  role_title : String
  industry : String
  status : LeadStatus
  deriving DecidableEq, Repr

/-- `Database.get_leads_by_status` with a status filter
(backend/database.py lines 218-232): `SELECT * FROM leads WHERE status = ?`.
The list order stands in for the `ORDER BY created_at DESC` ordering. -/
def get_leads_by_status (db : List DbLead) (status : LeadStatus) : List DbLead :=
  db.filter (fun l => l.status == status)

/-- `Database.update_lead_status` (backend/database.py lines 183-195):
`UPDATE leads SET status = ? WHERE id = ?`. -/
def update_lead_status (db : List DbLead) (lead_id : ℕ) (status : LeadStatus) :
    List DbLead :=
  db.map (fun l => if l.id = lead_id then { l with status := status } else l)

/-- The `if limit: leads = leads[:limit]` idiom of the MCP tools
(mcp_server/server.py): `limit = None` and `limit = 0` are both falsy in
Python, so neither truncates. -/
def takeLimit (limit : Option ℕ) (leads : List DbLead) : List DbLead :=
  match limit with
  | none => leads
  | some n => if n = 0 then leads else leads.take n

/-- Enrichment dictionary produced by `LeadEnricher` (backend/enrichment.py). -/
structure Enrichment where
  company_size : String
  persona_tag : String
  pain_points : List String
  buying_triggers : List String
  confidence_score : ℕ
  enrichment_mode : String
  deriving DecidableEq, Repr

/-- Python's substring test `needle in haystack` on the character lists. -/
def strContains (needle : String) (haystack : String) : Bool :=
  go needle.toList haystack.toList
where
  go (nd : List Char) : List Char → Bool
    | [] => nd.isEmpty
    | c :: t => nd.isPrefixOf (c :: t) || go nd t

/-- `LeadEnricher.company_size_rules` (backend/enrichment.py), in insertion
order (Python dicts iterate in insertion order). -/
def company_size_rules : List (String × String) :=
  [("VP", "medium"), ("Director", "medium"), ("Chief", "enterprise"),
   ("CTO", "enterprise"), ("CFO", "enterprise"), ("COO", "enterprise"),
   ("Manager", "small"), ("Head", "medium")]

/-- `LeadEnricher.persona_mapping` (backend/enrichment.py). -/
def persona_mapping : List (String × List (String × String)) :=
  [("Technology",
    [("VP of Engineering", "Tech Leader"), ("CTO", "Technology Executive"),
     ("Head of IT", "IT Decision Maker"), ("Director of Technology", "Tech Leader"),
     ("Chief Data Officer", "Data Leader")]),
   ("Manufacturing",
    [("VP of Operations", "Operations Executive"), ("COO", "C-Suite Operations"),
     ("Plant Manager", "Operations Manager"),
     ("Supply Chain Director", "Supply Chain Leader"),
     ("Operations Manager", "Operations Manager")]),
   ("Healthcare",
    [("Chief Medical Officer", "Healthcare Executive"),
     ("VP of Operations", "Healthcare Operations"),
     ("Hospital Administrator", "Healthcare Admin"),
     ("Director of IT", "Healthcare IT Leader"),
     ("Head of Procurement", "Procurement Head")]),
   ("Retail",
    [("VP of Sales", "Sales Executive"),
     ("Retail Operations Director", "Retail Ops Leader"),
     ("Merchandising Manager", "Merchandising Head"),
     ("Store Operations VP", "Retail Executive"),
     ("Chief Retail Officer", "C-Suite Retail")]),
   ("Finance",
    [("CFO", "Finance Executive"), ("VP of Finance", "Finance Leader"),
     ("Treasury Director", "Treasury Leader"),
     ("Risk Management Director", "Risk Leader"),
     ("Chief Investment Officer", "Investment Executive")]),
   ("Logistics",
    [("VP of Logistics", "Logistics Executive"),
     ("Supply Chain Director", "Supply Chain Leader"),
     ("Operations Manager", "Logistics Manager"),
     ("Distribution VP", "Distribution Leader"),
     ("Fleet Manager", "Fleet Operations")])]

/-- `LeadEnricher.pain_points_mapping` (backend/enrichment.py). -/
def pain_points_mapping : List (String × List String) :=
  [("Technology",
    ["Managing complex cloud infrastructure costs",
     "Scaling development teams efficiently",
     "Ensuring data security and compliance"]),
   ("Manufacturing",
    ["Optimizing production line efficiency",
     "Managing supply chain disruptions",
     "Reducing operational downtime"]),
   ("Healthcare",
    ["Improving patient care coordination",
     "Managing regulatory compliance",
     "Reducing operational costs while maintaining quality"]),
   ("Retail",
    ["Managing inventory across multiple locations",
     "Improving customer experience",
     "Optimizing supply chain and logistics"]),
   ("Finance",
    ["Managing financial risk and compliance",
     "Improving operational efficiency",
     "Modernizing legacy systems"]),
   ("Logistics",
    ["Optimizing route planning and fuel costs",
     "Managing fleet maintenance and downtime",
     "Improving delivery speed and reliability"])]

/-- `LeadEnricher.buying_triggers_mapping` (backend/enrichment.py). -/
def buying_triggers_mapping : List (String × List String) :=
  [("Technology", ["Digital transformation initiative", "Cloud migration project"]),
   ("Manufacturing", ["Expansion or new facility opening", "Automation initiative"]),
   ("Healthcare", ["New facility or expansion", "Regulatory compliance deadline"]),
   ("Retail", ["Omnichannel expansion", "Peak season preparation"]),
   ("Finance", ["Regulatory compliance requirement", "System modernization project"]),
   ("Logistics", ["Fleet expansion", "Route optimization initiative"])]

/-- `LeadEnricher._offline_enrichment` (backend/enrichment.py lines 147-189):
pure rule-based enrichment from `role_title` and `industry`. -/
def offline_enrichment (lead : DbLead) : Enrichment :=
  let role := lead.role_title
  let industry := lead.industry
  let company_size :=
    ((company_size_rules.find? (fun p => strContains p.1 role)).map Prod.snd).getD "medium"
  let persona_tag :=
    (((persona_mapping.lookup industry).getD []).lookup role).getD "Business Leader"
  let pain_points :=
    ((pain_points_mapping.lookup industry).getD
      ["Improving operational efficiency", "Managing costs", "Scaling operations"]).take 3
  let buying_triggers :=
    ((buying_triggers_mapping.lookup industry).getD
      ["Business expansion", "Cost optimization initiative"]).take 2
  let confidence := 75 +
    (if strContains "Chief" role || strContains "VP" role then 10 else 0) +
    (if (persona_mapping.lookup industry).isSome then 15 else 0)
  { company_size := company_size, persona_tag := persona_tag,
    pain_points := pain_points, buying_triggers := buying_triggers,
    confidence_score := min confidence 100, enrichment_mode := "offline" }

/-- `LeadEnricher._ai_enrichment` (backend/enrichment.py lines 191-245):
the try-block (LLM request plus JSON parse, modelled by the `ai` oracle)
either yields a parsed enrichment whose `enrichment_mode` is set to `"ai"`,
or raises, in which case the method falls back to offline enrichment. -/
def ai_enrichment (ai : Except String Enrichment) (lead : DbLead) : Enrichment :=
  match ai with
  | .ok e => { e with enrichment_mode := "ai" }
  | .error _ => offline_enrichment lead

/-- `LeadEnricher.enrich_lead` (backend/enrichment.py lines 247-260). -/
def enrich_lead (mode : String) (ai : Except String Enrichment) (lead : DbLead) :
    Enrichment :=
  if mode == "ai" then ai_enrichment ai lead else offline_enrichment lead

/-- The `enrich_leads` MCP tool (mcp_server/server.py lines 163-196): fetch
NEW leads, apply the optional limit, enrich each in turn, insert the
enrichment, and set the lead's status to ENRICHED. Returns the updated
database and the inserted `(lead_id, enrichment)` rows in processing order. -/
def enrich_leads_tool (db : List DbLead) (mode : String)
    (ai : ℕ → Except String Enrichment) (limit : Option ℕ) :
    List DbLead × List (ℕ × Enrichment) :=
  let sel := takeLimit limit (get_leads_by_status db .NEW)
  (sel.foldl (fun d l => update_lead_status d l.id .ENRICHED) db,
   sel.map (fun l => (l.id, enrich_lead mode (ai l.id) l)))

/-- The `generate_messages` MCP tool (mcp_server/server.py lines 198-241):
fetch ENRICHED leads, apply the optional limit, store four message rows and
set each lead's status to MESSAGED. Message contents are irrelevant to the
claims; the tool's database effect on statuses is what is modelled, plus the
number of leads processed. -/
def generate_messages_tool (db : List DbLead) (limit : Option ℕ) :
    List DbLead × ℕ :=
  let sel := takeLimit limit (get_leads_by_status db .ENRICHED)
  (sel.foldl (fun d l => update_lead_status d l.id .MESSAGED) db, sel.length)

/-- The `send_outreach` MCP tool (mcp_server/server.py lines 243-303): fetch
MESSAGED leads, apply the optional limit, dispatch to the requested
channels for each lead, and set the lead's status to SENT when every
channel result is success, else FAILED. The oracles are per lead id.
Returns the updated database and the per-lead written statuses. -/
def send_outreach_tool (db : List DbLead) (channel : String) (dry_run : Bool)
    (max_retries : ℕ) (smtp : ℕ → ℕ → Option String) (draw : ℕ → ℕ → Bool)
    (limit : Option ℕ) : List DbLead × List (ℕ × LeadStatus) :=
  let sel := takeLimit limit (get_leads_by_status db .MESSAGED)
  let result := fun (l : DbLead) =>
    dispatchStatus (send_outreach dry_run max_retries (smtp l.id) (draw l.id) channel).1
  (sel.foldl (fun d l => update_lead_status d l.id (result l)) db,
   sel.map (fun l => (l.id, result l)))

/-- One stage operation of the pipeline, as exposed by the MCP server's
`call_tool` (the three status-writing tools), carrying the tool arguments
and effect oracles. -/
inductive ToolOp where
  | enrich (mode : String) (ai : ℕ → Except String Enrichment) (limit : Option ℕ)
  | genMessages (limit : Option ℕ)
  | outreach (channel : String) (dry_run : Bool) (max_retries : ℕ)
      (smtp : ℕ → ℕ → Option String) (draw : ℕ → ℕ → Bool) (limit : Option ℕ)

/-- The database effect of one stage operation. -/
def applyTool : ToolOp → List DbLead → List DbLead
  | .enrich mode ai limit, db => (enrich_leads_tool db mode ai limit).1
  | .genMessages limit, db => (generate_messages_tool db limit).1
  | .outreach channel dry_run max_retries smtp draw limit, db =>
      (send_outreach_tool db channel dry_run max_retries smtp draw limit).1

/-- The process-wide `pipeline_state` dictionary of backend/api.py. -/
structure PipelineState where
  running : Bool
  current_stage : Option String
  progress : ℕ
  deriving DecidableEq, Repr

/-- FastAPI error response raised by an endpoint. -/
structure HttpError where
  status_code : ℕ
  detail : String
  deriving DecidableEq, Repr

/-- The `POST /pipeline/run` handler `run_pipeline` (backend/api.py lines
134-161): when a run is active it raises HTTP 409 before touching any state
or queuing anything; otherwise it queues `execute_pipeline` as a background
task (the handler itself still mutates nothing). Returns the (unchanged)
state, the response, and whether the background task was queued. -/
def run_pipeline (s : PipelineState) :
    PipelineState × Except HttpError String × Bool :=
  if s.running then
    (s, .error { status_code := 409, detail := "Pipeline already running" }, false)
  else
    (s, .ok "Pipeline started", true)

/-- The `POST /pipeline/stop` handler `stop_pipeline` (backend/api.py lines
164-170): set `running := false`, clear the current stage, leave `progress`
untouched. Total: it can raise nothing. -/
def stop_pipeline (s : PipelineState) : PipelineState :=
  { s with running := false, current_stage := none }

/-- Observable outcome of one `execute_pipeline` run (backend/api.py lines
194-333): the final `pipeline_state`, the successive values written to
`pipeline_state["progress"]`, and the successive statuses written for the
processed lead. -/
structure PipelineOutcome where
  final : PipelineState
  progressWrites : List ℕ
  statusWrites : List LeadStatus
  deriving Repr

/-- `execute_pipeline` (backend/api.py lines 194-333). Branch oracles:
`lead_data` — a request body lead was supplied; `process_ok` —
`process_external_lead` did not raise `ValueError`; `found_lead` — the
freshly inserted lead was found among the NEW leads. The `finally` block
always clears `running`. Progress writes follow the source exactly:
0 at run start, 10 at the start of stage 1, then 25 / 50 / 75 / 100 at the
four stage completions. -/
def execute_pipeline (lead_data process_ok found_lead : Bool) (dry_run : Bool)
    (max_retries : ℕ) (smtp : ℕ → Option String) (draw : ℕ → Bool)
    (channel : String) : PipelineOutcome :=
  -- running := true ; progress := 0 ; stage 1 ; progress := 10
  if lead_data = false ∨ process_ok = false then
    { final := { running := false, current_stage := some "Processing leads",
                 progress := 10 },
      progressWrites := [0, 10], statusWrites := [] }
  else
    -- insert_lead (status NEW) ; progress := 25 ; stage 2
    if found_lead = false then
      { final := { running := false, current_stage := some "Enriching lead",
                   progress := 25 },
        progressWrites := [0, 10, 25], statusWrites := [] }
    else
      -- enrich ; ENRICHED ; progress := 50 ; messages ; MESSAGED ;
      -- progress := 75 ; dispatch ; SENT or FAILED ; progress := 100
      let results := (send_outreach dry_run max_retries smtp draw channel).1
      { final := { running := false, current_stage := some "Complete",
                   progress := 100 },
        progressWrites := [0, 10, 25, 50, 75, 100],
        statusWrites := [.ENRICHED, .MESSAGED, dispatchStatus results] }

/-! ### Helper lemmas about the database fold of the stage tools -/

theorem takeLimit_sublist (limit : Option ℕ) (xs : List DbLead) :
    (takeLimit limit xs).Sublist xs := by
  cases limit with
  | none => exact List.Sublist.refl xs
  | some n =>
      by_cases hn : n = 0
      · simp [takeLimit, hn]
      · simp only [takeLimit, if_neg hn]
        exact List.take_sublist n xs

theorem sel_sublist (db : List DbLead) (pre : LeadStatus) (limit : Option ℕ) :
    (takeLimit limit (get_leads_by_status db pre)).Sublist db :=
  (takeLimit_sublist limit _).trans (List.filter_sublist db)

theorem sel_status (db : List DbLead) (pre : LeadStatus) (limit : Option ℕ)
    {l : DbLead} (hl : l ∈ takeLimit limit (get_leads_by_status db pre)) :
    l.status = pre := by
  have hmem : l ∈ get_leads_by_status db pre :=
    (takeLimit_sublist limit _).subset hl
  have := List.of_mem_filter hmem
  simpa [beq_iff_eq] using this

/-- Folding `update_lead_status` over a list of leads with pairwise distinct
ids rewrites the database pointwise: a row is rewritten to the target status
of the unique selected lead sharing its id, if any. -/
theorem foldl_update_eq_map (g : DbLead → LeadStatus) :
    ∀ (sel : List DbLead), ((sel.map DbLead.id).Nodup) → ∀ (db : List DbLead),
    sel.foldl (fun d s => update_lead_status d s.id (g s)) db
      = db.map (fun l =>
          match sel.find? (fun s => s.id == l.id) with
          | some s => { l with status := g s }
          | none => l) := by
  intro sel
  induction sel with
  | nil =>
      intro _ db
      simp [List.find?]
  | cons s sel ih =>
      intro hnd db
      have hs : s.id ∉ sel.map DbLead.id := (List.nodup_cons.mp hnd).1
      have hnd' : (sel.map DbLead.id).Nodup := (List.nodup_cons.mp hnd).2
      rw [List.foldl_cons, ih hnd', update_lead_status, List.map_map]
      apply List.map_congr_left
      intro l _
      by_cases hid : l.id = s.id
      · have hupd : (if l.id = s.id then { l with status := g s } else l)
            = { l with status := g s } := if_pos hid
        have hnone : sel.find? (fun x => x.id == ({ l with status := g s } : DbLead).id)
            = none := by
          apply List.find?_eq_none.mpr
          intro x hx
          simp only [beq_iff_eq]
          intro hcontra
          exact hs (by simpa [hcontra, hid] using List.mem_map_of_mem DbLead.id hx)
        simp only [Function.comp_apply, hupd, hnone, List.find?_cons,
          show (s.id == l.id) = true by simp [hid]]
      · have hupd : (if l.id = s.id then { l with status := g s } else l) = l :=
          if_neg hid
        simp only [Function.comp_apply, hupd, List.find?_cons,
          show (s.id == l.id) = false by simp [beq_iff_eq]; exact fun h => hid h.symm]

/-- Pointwise effect of one stage tool: every row keeps its id and is either
untouched or, when it was selected (hence had the stage's input status),
rewritten to that row's target status. -/
theorem tool_step_forall₂ (pre : LeadStatus) (g : DbLead → LeadStatus)
    (limit : Option ℕ) (db : List DbLead) (h : (db.map DbLead.id).Nodup) :
    List.Forall₂ (fun l lNew => lNew.id = l.id ∧
        (lNew = l ∨ (l.status = pre ∧ lNew.status = g l)))
      db ((takeLimit limit (get_leads_by_status db pre)).foldl
            (fun d s => update_lead_status d s.id (g s)) db) := by
  have hselnd : (((takeLimit limit (get_leads_by_status db pre)).map DbLead.id)).Nodup :=
    List.Nodup.sublist (List.Sublist.map DbLead.id (sel_sublist db pre limit)) h
  rw [foldl_update_eq_map g _ hselnd db, List.forall₂_map_right_iff,
    List.forall₂_same]
  intro l hl
  cases hfind : (takeLimit limit (get_leads_by_status db pre)).find?
      (fun s => s.id == l.id) with
  | none => simp [hfind]
  | some s =>
      have hmem : s ∈ takeLimit limit (get_leads_by_status db pre) :=
        List.mem_of_find?_eq_some hfind
      have hsid : s.id = l.id := by
        have := List.find?_some hfind
        simpa [beq_iff_eq] using this
      have hsl : s = l :=
        List.inj_on_of_nodup_map h ((sel_sublist db pre limit).subset hmem) hl hsid
      have hpre : l.status = pre := hsl ▸ sel_status db pre limit hmem
      simp [hfind, hsl, hpre]

/-! ### C1 — the stage state machine only moves forward -/

/-- C1: For every stage/tool operation (enrich, generate messages, dispatch)
and every database whose lead ids are distinct (the `leads.id` primary key),
every lead keeps its id, its status is either unchanged or moves along one
forward edge of `NEW -> ENRICHED -> MESSAGED -> (SENT | FAILED)`, and a lead
already in the terminal statuses `SENT` or `FAILED` is never changed by any
stage operation. -/
theorem status_transitions_only_forward (op : ToolOp) (db : List DbLead)
    (h : (db.map DbLead.id).Nodup) :
    List.Forall₂ (fun l lNew => lNew.id = l.id ∧
        (lNew.status = l.status ∨ StatusEdge l.status lNew.status) ∧
        ((l.status = .SENT ∨ l.status = .FAILED) → lNew.status = l.status))
      db (applyTool op db) := by
  cases op with
  | enrich mode ai limit =>
      refine (tool_step_forall₂ .NEW (fun _ => .ENRICHED) limit db h).imp ?_
      rintro a b ⟨hid, hb | ⟨hpre, hst⟩⟩
      · exact ⟨hid, Or.inl (by rw [hb]), fun _ => by rw [hb]⟩
      · refine ⟨hid, Or.inr ?_, ?_⟩
        · rw [hpre, hst]; exact StatusEdge.enrich
        · rintro (hterm | hterm) <;> simp [hterm] at hpre
  | genMessages limit =>
      refine (tool_step_forall₂ .ENRICHED (fun _ => .MESSAGED) limit db h).imp ?_
      rintro a b ⟨hid, hb | ⟨hpre, hst⟩⟩
      · exact ⟨hid, Or.inl (by rw [hb]), fun _ => by rw [hb]⟩
      · refine ⟨hid, Or.inr ?_, ?_⟩
        · rw [hpre, hst]; exact StatusEdge.message
        · rintro (hterm | hterm) <;> simp [hterm] at hpre
  | outreach channel dry_run max_retries smtp draw limit =>
      refine (tool_step_forall₂ .MESSAGED
        (fun l => dispatchStatus
          (send_outreach dry_run max_retries (smtp l.id) (draw l.id) channel).1)
        limit db h).imp ?_
      rintro a b ⟨hid, hb | ⟨hpre, hst⟩⟩
      · exact ⟨hid, Or.inl (by rw [hb]), fun _ => by rw [hb]⟩
      · refine ⟨hid, Or.inr ?_, ?_⟩
        · rw [hpre, hst]
          unfold dispatchStatus
          split
          · exact StatusEdge.sent
          · exact StatusEdge.failed
        · rintro (hterm | hterm) <;> simp [hterm] at hpre

/-- Witness for C1 at a concrete database and operation. -/
theorem status_transitions_only_forward_witness :
    List.Forall₂ (fun l lNew => lNew.id = l.id ∧
        (lNew.status = l.status ∨ StatusEdge l.status lNew.status) ∧
        ((l.status = .SENT ∨ l.status = .FAILED) → lNew.status = l.status))
      ([⟨1, "CTO", "Technology", .ENRICHED⟩, ⟨2, "CFO", "Finance", .SENT⟩] : List DbLead)
      (applyTool (ToolOp.genMessages none)
        ([⟨1, "CTO", "Technology", .ENRICHED⟩, ⟨2, "CFO", "Finance", .SENT⟩] : List DbLead)) :=
  status_transitions_only_forward (ToolOp.genMessages none)
    ([⟨1, "CTO", "Technology", .ENRICHED⟩, ⟨2, "CFO", "Finance", .SENT⟩] : List DbLead)
    (by decide)

/-! ### Dispatcher result lemmas -/

theorem dispatchStatus_sent_iff (results : List (String × SendResult)) :
    dispatchStatus results = .SENT ↔ ∀ r ∈ results, r.2.status = "success" := by
  by_cases hall : allSuccess results = true
  · refine iff_of_true (by simp [dispatchStatus, hall]) ?_
    simpa [allSuccess, List.all_eq_true, beq_iff_eq] using hall
  · refine iff_of_false (by simp [dispatchStatus, hall]) ?_
    intro hforall
    exact hall (by simpa [allSuccess, List.all_eq_true, beq_iff_eq] using hforall)

theorem dispatchStatus_sent_or_failed (results : List (String × SendResult)) :
    dispatchStatus results = .SENT ∨ dispatchStatus results = .FAILED := by
  unfold dispatchStatus
  split
  · exact Or.inl rfl
  · exact Or.inr rfl

/-- The LinkedIn simulation only ever produces the two simulated records. -/
theorem sendLinkedinAux_cases (draw : ℕ → Bool) :
    ∀ (remaining retryCount : ℕ),
      sendLinkedinAux draw retryCount remaining
        = { status := "success", message := "LinkedIn DM simulated successfully",
            channel := "linkedin" } ∨
      sendLinkedinAux draw retryCount remaining
        = { status := "failed", message := "LinkedIn DM simulation failed",
            channel := "linkedin" } := by
  intro remaining
  induction remaining with
  | zero =>
      intro retryCount
      unfold sendLinkedinAux
      split
      · exact Or.inl rfl
      · exact Or.inr rfl
  | succ r ih =>
      intro retryCount
      unfold sendLinkedinAux
      split
      · exact Or.inl rfl
      · exact ih (retryCount + 1)

/-! ### C2 — SENT iff every requested channel succeeded -/

/-- C2: For every dispatch of a lead over a non-empty requested channel set
(`email`, `linkedin`, or `both`), the aggregated per-lead status is `SENT`
exactly when every requested channel's result has outcome success, it is
`FAILED` otherwise, and no third status can be written. -/
theorem dispatch_sent_iff_all_channels_success (dry_run : Bool) (max_retries : ℕ)
    (smtp : ℕ → Option String) (draw : ℕ → Bool) (channel : String)
    (h : channel = "email" ∨ channel = "linkedin" ∨ channel = "both") :
    (send_outreach dry_run max_retries smtp draw channel).1 ≠ [] ∧
    (dispatchStatus (send_outreach dry_run max_retries smtp draw channel).1 = .SENT ↔
      ∀ r ∈ (send_outreach dry_run max_retries smtp draw channel).1,
        r.2.status = "success") ∧
    (dispatchStatus (send_outreach dry_run max_retries smtp draw channel).1 = .SENT ∨
      dispatchStatus (send_outreach dry_run max_retries smtp draw channel).1 = .FAILED) := by
  refine ⟨?_, dispatchStatus_sent_iff _, dispatchStatus_sent_or_failed _⟩
  rcases h with h | h | h <;> subst h <;> simp [send_outreach]

/-- Witness for C2: dispatch over both channels with an always-failing SMTP
oracle and an always-succeeding LinkedIn draw. -/
theorem dispatch_sent_iff_all_channels_success_witness :
    (send_outreach false 2 (fun _ => some "boom") (fun _ => true) "both").1 ≠ [] ∧
    (dispatchStatus (send_outreach false 2 (fun _ => some "boom") (fun _ => true) "both").1
        = .SENT ↔
      ∀ r ∈ (send_outreach false 2 (fun _ => some "boom") (fun _ => true) "both").1,
        r.2.status = "success") ∧
    (dispatchStatus (send_outreach false 2 (fun _ => some "boom") (fun _ => true) "both").1
        = .SENT ∨
      dispatchStatus (send_outreach false 2 (fun _ => some "boom") (fun _ => true) "both").1
        = .FAILED) :=
  dispatch_sent_iff_all_channels_success false 2 (fun _ => some "boom") (fun _ => true)
    "both" (Or.inr (Or.inr rfl))

/-! ### C3 — dry-run dispatch -/

/-- Counterexample to C3 as stated: with `dry_run = true` and the requested
channel `linkedin`, a run of unlucky simulation draws (every
`random.random() < 0.95` draw failing) makes the returned channel result
`failed`, not `success` — `send_linkedin_dm` ignores the dry-run flag
entirely, so dry-run does not force success on the LinkedIn channel. -/
theorem dry_run_linkedin_can_fail_cex :
    ((send_outreach true 2 (fun _ => none) (fun _ => false) "linkedin").1.map
        (fun r => (r.1, r.2.status))) = [("linkedin", "failed")] ∧
    ¬ (∀ r ∈ (send_outreach true 2 (fun _ => none) (fun _ => false) "linkedin").1,
        r.2.status = "success") := by
  constructor
  · rfl
  · intro hforall
    have h2 := hforall ("linkedin",
      { status := "failed", message := "LinkedIn DM simulation failed",
        channel := "linkedin" }) (by decide)
    exact absurd h2 (by decide)

/-- C3 amended: with `dry_run = true` no live SMTP session is ever opened on
any requested channel, and the email channel always returns the logged
`success` record; the LinkedIn channel is always simulated without I/O, but
its result is whatever the simulation produces (it may be `failed` after
exhausting retries) because `send_linkedin_dm` never consults the dry-run
flag. -/
theorem dry_run_no_live_send_amended (max_retries : ℕ) (smtp : ℕ → Option String)
    (draw : ℕ → Bool) :
    send_outreach true max_retries smtp draw "email"
      = ([("email", { status := "success", message := "Dry run - email logged",
                      channel := "email" })], 0) ∧
    send_outreach true max_retries smtp draw "linkedin"
      = ([("linkedin", send_linkedin_dm max_retries draw 0)], 0) ∧
    send_outreach true max_retries smtp draw "both"
      = ([("email", { status := "success", message := "Dry run - email logged",
                      channel := "email" }),
          ("linkedin", send_linkedin_dm max_retries draw 0)], 0) :=
  ⟨rfl, rfl, rfl⟩

/-! ### C10 — the LinkedIn path is never live -/

/-- C10: The LinkedIn dispatch path performs no network/SMTP operation for
any value of the dry-run flag: the dispatch of the `linkedin` channel is
byte-for-byte independent of `dry_run` (and of the SMTP oracle), opens 0
live SMTP sessions, and its result is always one of the two simulated
records (success, or failed after exhausting retries). -/
theorem linkedin_never_live (d₁ d₂ : Bool) (max_retries : ℕ)
    (smtp₁ smtp₂ : ℕ → Option String) (draw : ℕ → Bool) :
    send_outreach d₁ max_retries smtp₁ draw "linkedin"
      = send_outreach d₂ max_retries smtp₂ draw "linkedin" ∧
    (send_outreach d₁ max_retries smtp₁ draw "linkedin").2 = 0 ∧
    ((send_linkedin_dm max_retries draw 0)
        = { status := "success", message := "LinkedIn DM simulated successfully",
            channel := "linkedin" } ∨
     (send_linkedin_dm max_retries draw 0)
        = { status := "failed", message := "LinkedIn DM simulation failed",
            channel := "linkedin" }) :=
  ⟨rfl, rfl, sendLinkedinAux_cases draw (max_retries - 0) 0⟩

/-! ### C4 — retry exhaustion and success results of the email channel -/

theorem sendEmailAux_all_fail (smtp : ℕ → Option String) :
    ∀ (remaining retryCount : ℕ),
      (∀ k, retryCount ≤ k → k ≤ retryCount + remaining → smtp k ≠ none) →
      ∀ err, smtp (retryCount + remaining) = some err →
      sendEmailAux smtp retryCount remaining
        = ({ status := "failed",
             message := "Email failed after " ++ toString (retryCount + remaining + 1) ++
               " attempts: " ++ err,
             channel := "email" }, remaining + 1) := by
  intro remaining
  induction remaining with
  | zero =>
      intro retryCount _ err herr
      rw [Nat.add_zero] at herr
      unfold sendEmailAux
      rw [herr]
  | succ r ih =>
      intro retryCount hfail err herr
      have h0 : smtp retryCount ≠ none :=
        hfail retryCount le_rfl (Nat.le_add_right _ _)
      obtain ⟨e0, he0⟩ := Option.ne_none_iff_exists'.mp h0
      have hstep := ih (retryCount + 1)
        (fun k hk1 hk2 => hfail k (le_trans (Nat.le_succ _) hk1) (by omega))
        err (by rw [show retryCount + 1 + r = retryCount + (r + 1) by omega]; exact herr)
      unfold sendEmailAux
      rw [he0]
      simp only [hstep]
      refine Prod.ext ?_ rfl
      have : retryCount + 1 + r = retryCount + (r + 1) := by omega
      rw [this]

theorem sendEmailAux_success_at (smtp : ℕ → Option String) :
    ∀ (remaining retryCount k : ℕ), retryCount ≤ k → k ≤ retryCount + remaining →
      (∀ i, retryCount ≤ i → i < k → smtp i ≠ none) → smtp k = none →
      sendEmailAux smtp retryCount remaining
        = ({ status := "success", message := "Email sent successfully",
             channel := "email" }, k - retryCount + 1) := by
  intro remaining
  induction remaining with
  | zero =>
      intro retryCount k hk1 hk2 _ hnone
      have hkeq : k = retryCount := by omega
      subst hkeq
      unfold sendEmailAux
      rw [hnone, Nat.sub_self]
  | succ r ih =>
      intro retryCount k hk1 hk2 hprev hnone
      by_cases hkeq : k = retryCount
      · subst hkeq
        unfold sendEmailAux
        rw [hnone, Nat.sub_self]
      · have hlt : retryCount < k := lt_of_le_of_ne hk1 (Ne.symm hkeq)
        have h0 : smtp retryCount ≠ none := hprev retryCount le_rfl hlt
        obtain ⟨e0, he0⟩ := Option.ne_none_iff_exists'.mp h0
        have hstep := ih (retryCount + 1) k hlt (by omega)
          (fun i hi1 hi2 => hprev i (le_trans (Nat.le_succ _) hi1) hi2) hnone
        unfold sendEmailAux
        rw [he0]
        simp only [hstep]
        refine Prod.ext rfl ?_
        show k - (retryCount + 1) + 1 + 1 = k - retryCount + 1
        omega

/-- Counterexample to C4 as stated: the success result returned by
`send_email` carries no attempt count at all. With `max_retries = 2`, an
oracle failing only the first attempt (success on attempt 2, so the claim
demands `attempt_count = 2`) returns a result identical to the one for an
oracle succeeding immediately (where the claim demands `attempt_count = 1`):
the success record is the constant `"Email sent successfully"` dictionary,
so no field of the returned result can equal the attempt count in both
cases. -/
theorem email_success_carries_no_attempt_count_cex :
    (send_email false 2 (fun n => if n = 0 then some "connection refused" else none) 0).1
      = (send_email false 2 (fun _ => none) 0).1 ∧
    (send_email false 2 (fun n => if n = 0 then some "connection refused" else none) 0).1.message
      = "Email sent successfully" :=
  ⟨rfl, rfl⟩

/-- C4 amended: a channel send failing on all `max_retries + 1` attempts
returns (never raises) the `failed` result whose detail message embeds the
attempt count `max_retries + 1` and the last error, after opening exactly
`max_retries + 1` live SMTP sessions; a send failing its first `k` attempts
and succeeding on attempt `k + 1` returns the constant success record
(carrying no attempt count) after exactly `k + 1` live sessions. -/
theorem email_retry_result_amended (max_retries : ℕ) (smtp : ℕ → Option String) :
    ((∀ j, j ≤ max_retries → smtp j ≠ none) → ∀ err, smtp max_retries = some err →
      send_email false max_retries smtp 0
        = ({ status := "failed",
             message := "Email failed after " ++ toString (max_retries + 1) ++
               " attempts: " ++ err,
             channel := "email" }, max_retries + 1)) ∧
    (∀ k, k ≤ max_retries → (∀ i, i < k → smtp i ≠ none) → smtp k = none →
      send_email false max_retries smtp 0
        = ({ status := "success", message := "Email sent successfully",
             channel := "email" }, k + 1)) := by
  constructor
  · intro hfail err herr
    have := sendEmailAux_all_fail smtp max_retries 0
      (fun j _ hj2 => hfail j (by omega)) err (by simpa using herr)
    simpa [send_email] using this
  · intro k hk hprev hnone
    have := sendEmailAux_success_at smtp max_retries 0 k (Nat.zero_le k)
      (by omega) (fun i _ hi2 => hprev i hi2) hnone
    simpa [send_email] using this

/-- Witness for C4 (amended): with `max_retries = 1` and an oracle that
fails every attempt, the failed result embeds attempt count 2 and the last
error; with an oracle succeeding on the second attempt, the constant
success record is returned after 2 sessions. -/
theorem email_retry_result_amended_witness :
    send_email false 1 (fun _ => some "boom") 0
      = ({ status := "failed",
           message := "Email failed after " ++ toString (1 + 1) ++ " attempts: " ++ "boom",
           channel := "email" }, 1 + 1) ∧
    send_email false 1 (fun n => if n = 0 then some "boom" else none) 0
      = ({ status := "success", message := "Email sent successfully",
           channel := "email" }, 1 + 1) :=
  ⟨(email_retry_result_amended 1 (fun _ => some "boom")).1
      (fun j _ => by simp) "boom" rfl,
   (email_retry_result_amended 1 (fun n => if n = 0 then some "boom" else none)).2
      1 (by decide) (fun i hi => by simp [Nat.lt_one_iff.mp hi]) (by simp)⟩

/-! ### C5 — starting a run while one is active is rejected atomically -/

/-- C5: A `POST /pipeline/run` request made while `running` is true is
rejected with HTTP 409, no background task is queued, and the pipeline
state (running flag, current stage, progress) is returned exactly as it
was. -/
theorem run_conflict_rejected (s : PipelineState) (h : s.running = true) :
    run_pipeline s
      = (s, .error { status_code := 409, detail := "Pipeline already running" },
         false) := by
  simp [run_pipeline, h]

/-- Witness for C5 at a concrete active-run state. -/
theorem run_conflict_rejected_witness :
    run_pipeline { running := true, current_stage := some "Enriching lead", progress := 50 }
      = ({ running := true, current_stage := some "Enriching lead", progress := 50 },
         .error { status_code := 409, detail := "Pipeline already running" }, false) :=
  run_conflict_rejected
    { running := true, current_stage := some "Enriching lead", progress := 50 } rfl

/-! ### C9 — stop is idempotent when no run is active -/

/-- C9: On any state with no active run, `stop()` composed with `stop()`
equals a single `stop()`: the second call raises nothing (it is a total
function) and leaves the state exactly as the first call left it. -/
theorem stop_idempotent_no_run (s : PipelineState) (h : s.running = false) :
    stop_pipeline (stop_pipeline s) = stop_pipeline s :=
  rfl

/-- Witness for C9 at a concrete idle state. -/
theorem stop_idempotent_no_run_witness :
    stop_pipeline (stop_pipeline { running := false, current_stage := none, progress := 100 })
      = stop_pipeline { running := false, current_stage := none, progress := 100 } :=
  stop_idempotent_no_run { running := false, current_stage := none, progress := 100 } rfl

/-! ### C6 — per-lead processor failure and the batch -/

/-- Counterexample to C6 as stated: in a batch of three NEW leads enriched
in `ai` mode where the AI call for lead 2 raises, the batch does continue,
but the "failing" lead is NOT left at its pre-stage status: the exception is
swallowed inside the processor (`_ai_enrichment` falls back to
`_offline_enrichment`), so lead 2 is advanced to `ENRICHED` like the others,
and the record inserted for it is the offline fallback (mode `"offline"`) —
no per-lead error is recorded anywhere. -/
theorem processor_failure_lead_still_advances_cex :
    ((enrich_leads_tool
        ([⟨1, "CTO", "Technology", .NEW⟩, ⟨2, "CFO", "Finance", .NEW⟩,
          ⟨3, "COO", "Manufacturing", .NEW⟩] : List DbLead)
        "ai"
        (fun i => if i = 2 then .error "Groq request timed out"
          else .ok { company_size := "medium", persona_tag := "Tech Leader",
                     pain_points := [], buying_triggers := [],
                     confidence_score := 85, enrichment_mode := "ai" })
        none).1.map DbLead.status) = [.ENRICHED, .ENRICHED, .ENRICHED] ∧
    LeadStatus.ENRICHED ≠ LeadStatus.NEW ∧
    ((enrich_leads_tool
        ([⟨1, "CTO", "Technology", .NEW⟩, ⟨2, "CFO", "Finance", .NEW⟩,
          ⟨3, "COO", "Manufacturing", .NEW⟩] : List DbLead)
        "ai"
        (fun i => if i = 2 then .error "Groq request timed out"
          else .ok { company_size := "medium", persona_tag := "Tech Leader",
                     pain_points := [], buying_triggers := [],
                     confidence_score := 85, enrichment_mode := "ai" })
        none).2.lookup 2).map Enrichment.enrichment_mode = some "offline" := by
  refine ⟨by decide, by decide, by decide⟩

/-- C6 amended: an AI-stage processor exception for one lead does not abort
the batch, but only because it is caught inside the processor itself and
replaced by the offline fallback result: the enrich stage completes for
every selected lead (one inserted record per selected lead), every selected
lead — including any whose AI call raised — is advanced from `NEW` to
`ENRICHED` rather than being left at its pre-stage status, the failing
lead's inserted record is the offline fallback enrichment (mode
`"offline"`), and no per-lead error is recorded. Leads outside the
selection are untouched. -/
theorem enrich_stage_isolation_amended (db : List DbLead)
    (ai : ℕ → Except String Enrichment) (limit : Option ℕ)
    (h : (db.map DbLead.id).Nodup) :
    List.Forall₂ (fun l lNew => lNew.id = l.id ∧
        (lNew = l ∨ (l.status = .NEW ∧ lNew.status = .ENRICHED)))
      db (enrich_leads_tool db "ai" ai limit).1 ∧
    (enrich_leads_tool db "ai" ai limit).2.length
      = (takeLimit limit (get_leads_by_status db .NEW)).length ∧
    (∀ l ∈ takeLimit limit (get_leads_by_status db .NEW), ∀ msg,
      ai l.id = .error msg →
      (l.id, offline_enrichment l) ∈ (enrich_leads_tool db "ai" ai limit).2) := by
  refine ⟨tool_step_forall₂ .NEW (fun _ => .ENRICHED) limit db h, ?_, ?_⟩
  · simp [enrich_leads_tool]
  · intro l hl msg herr
    have : (l.id, enrich_lead "ai" (ai l.id) l)
        ∈ (enrich_leads_tool db "ai" ai limit).2 := by
      simp only [enrich_leads_tool]
      exact List.mem_map_of_mem (fun l => (l.id, enrich_lead "ai" (ai l.id) l)) hl
    simpa [enrich_lead, ai_enrichment, herr] using this

/-- Witness for C6 (amended) at a one-lead database whose AI oracle raises. -/
theorem enrich_stage_isolation_amended_witness :
    List.Forall₂ (fun l lNew => lNew.id = l.id ∧
        (lNew = l ∨ (l.status = .NEW ∧ lNew.status = .ENRICHED)))
      ([⟨7, "CTO", "Technology", .NEW⟩] : List DbLead)
      (enrich_leads_tool ([⟨7, "CTO", "Technology", .NEW⟩] : List DbLead) "ai"
        (fun _ => .error "LLM unavailable") none).1 ∧
    (enrich_leads_tool ([⟨7, "CTO", "Technology", .NEW⟩] : List DbLead) "ai"
        (fun _ => .error "LLM unavailable") none).2.length
      = (takeLimit none (get_leads_by_status
          ([⟨7, "CTO", "Technology", .NEW⟩] : List DbLead) .NEW)).length ∧
    (∀ l ∈ takeLimit none (get_leads_by_status
        ([⟨7, "CTO", "Technology", .NEW⟩] : List DbLead) .NEW), ∀ msg,
      (fun (_ : ℕ) => (Except.error "LLM unavailable" : Except String Enrichment)) l.id
        = .error msg →
      (l.id, offline_enrichment l)
        ∈ (enrich_leads_tool ([⟨7, "CTO", "Technology", .NEW⟩] : List DbLead) "ai"
            (fun _ => .error "LLM unavailable") none).2) :=
  enrich_stage_isolation_amended ([⟨7, "CTO", "Technology", .NEW⟩] : List DbLead)
    (fun _ => .error "LLM unavailable") none (by decide)

/-! ### C7 — the rate limiter is fixed-window, not rolling-window -/

/-- Counterexample to C7 as stated: `_apply_rate_limit` is a fixed-window
counter, so a rolling 60-second interval straddling a window reset can see
more than `rate_limit` sends. With `rate_limit = 2` and a service created at
time 0, calls entering at times 10, 58, 59, 61 produce sends at
10, 58, 60, 61: all four send timestamps lie inside the rolling interval
`[1, 61]` of length 60, exceeding the limit 2. (The call sequence is
feasible for the single worker: each entry time is at or after the previous
call's return time, 58 ≥ 10, 59 ≥ 58, 61 ≥ 60.) -/
theorem rate_limit_rolling_window_exceeded_cex :
    rlSimulate 2 ⟨0, 0, 0⟩ [10, 58, 59, 61] = [10, 58, 60, 61] ∧
    (∀ x ∈ rlSimulate 2 ⟨0, 0, 0⟩ [10, 58, 59, 61], (1 : ℚ) ≤ x ∧ x ≤ 61) ∧
    (61 : ℚ) - 1 ≤ 60 ∧
    (rlSimulate 2 ⟨0, 0, 0⟩ [10, 58, 59, 61]).length = 4 ∧ 2 < 4 ∧
    ((10 : ℚ) ≤ 58 ∧ (58 : ℚ) ≤ 59 ∧ (60 : ℚ) ≤ 61) := by
  have hsim : rlSimulate 2 ⟨0, 0, 0⟩ [10, 58, 59, 61] = [10, 58, 60, 61] := by
    simp only [rlSimulate, apply_rate_limit]
    norm_num
  refine ⟨hsim, ?_, by norm_num, by rw [hsim]; rfl, by norm_num, by norm_num⟩
  rw [hsim]
  intro x hx
  simp only [List.mem_cons, List.mem_singleton, List.not_mem_nil, or_false] at hx
  rcases hx with rfl | rfl | rfl | rfl <;> norm_num

/-- C7 amended: the limiter enforces a fixed 60-second window: after any
call, the window counter `send_count` never exceeds the configured limit
(for any positive limit), and a call that arrives inside the current window
when the counter has reached the limit blocks until window rollover — its
send happens no earlier than `send_window_start + 60`. Across a window
reset, however, a rolling 60-second interval may contain up to twice the
limit (see the counterexample). -/
theorem rate_limit_fixed_window_amended (rate_limit : ℕ) (s : RLState) (t : ℚ)
    (hL : 1 ≤ rate_limit) :
    (apply_rate_limit rate_limit s t).1.send_count ≤ rate_limit ∧
    (t - s.send_window_start < 60 → rate_limit ≤ s.send_count →
      s.send_window_start + 60 ≤ (apply_rate_limit rate_limit s t).2) := by
  constructor
  · simp only [apply_rate_limit]
    split_ifs <;> simp <;> try omega
    all_goals exfalso; linarith
  · intro hw hc
    have h1 : ¬ (t - s.send_window_start ≥ 60) := by linarith
    have hc2 : s.send_count ≥ rate_limit := hc
    have h3 : (60 : ℚ) - (t - s.send_window_start) > 0 := by linarith
    simp only [apply_rate_limit, if_neg h1, if_pos hc2, if_pos h3]
    split_ifs with h4
    · have hpos : (0 : ℚ) ≤ 1 - (t - s.last_send_time) := by linarith
      linarith
    · linarith

/-- Witness for C7 (amended) at a concrete limiter state and call time. -/
theorem rate_limit_fixed_window_amended_witness :
    (apply_rate_limit 1 ⟨0, 1, 0⟩ 30).1.send_count ≤ 1 ∧
    ((30 : ℚ) - (0 : ℚ) < 60 → 1 ≤ 1 →
      (0 : ℚ) + 60 ≤ (apply_rate_limit 1 ⟨0, 1, 0⟩ 30).2) :=
  rate_limit_fixed_window_amended 1 ⟨0, 1, 0⟩ 30 (by decide)

/-! ### C8 — progress accounting of a pipeline run -/

/-- Counterexample to C8 as stated: a run processes exactly one lead per
stage, so "progress proportional to leads completed so far in the stage"
takes only the stage-boundary values, the multiples of 25 in `[0, 100]`.
The run's progress write trace is `[0, 10, 25, 50, 75, 100]`: it contains
the value 10 — written at the start of stage 1 with zero leads completed —
which is not `25 * k` for any `k ≤ 4`, so within-stage progress is not
proportional to completed leads. -/
theorem progress_write_not_proportional_cex :
    (execute_pipeline true true true true 2 (fun _ => none) (fun _ => true)
        "both").progressWrites = [0, 10, 25, 50, 75, 100] ∧
    10 ∈ (execute_pipeline true true true true 2 (fun _ => none) (fun _ => true)
        "both").progressWrites ∧
    (∀ k, k ≤ 4 → 25 * k ≠ 10) :=
  ⟨rfl, by decide, by decide⟩

/-- C8 amended: on a run that completes all four stages, the progress values
observed at the four stage completions are exactly 25, 50, 75, 100 (a fixed
25-point increment per completed stage) and the trace is non-decreasing; the
only other write besides the initial 0 is a fixed 10 at the start of stage 1
— there is no per-lead proportional accounting within a stage (each run
processes a single lead). -/
theorem progress_stage_boundaries_amended (dry_run : Bool) (max_retries : ℕ)
    (smtp : ℕ → Option String) (draw : ℕ → Bool) (channel : String) :
    (execute_pipeline true true true dry_run max_retries smtp draw
        channel).progressWrites = [0, 10, 25, 50, 75, 100] ∧
    (execute_pipeline true true true dry_run max_retries smtp draw
        channel).final.progress = 100 ∧
    List.Chain' (· ≤ ·) (execute_pipeline true true true dry_run max_retries smtp
        draw channel).progressWrites := by
  refine ⟨rfl, rfl, ?_⟩
  show List.Chain' (· ≤ ·) [0, 10, 25, 50, 75, 100]
  norm_num [List.chain'_cons]

end LeadGen
